import Mathlib

/-!
Verification of the github-upvotes repository's upvote-score engine.

The repository contains several iterations of the same program.  Each Lean
namespace below is a shallow embedding of one Go source unit:

* `QueryV1`  — `src/query.go` (package `main`, first document): the
  `BaseFragment` / `ContentFragment` / `TimeLineItem` score model and the
  `ProjectItem.GetContent` / `Skip` dispatch.
* `QueriesV2` — `src/queries.go`: the later `TimelineItem` /
  `IssueOrPullRequestCommentsAndReactionsFragment` score model and the
  `ProjectItemFragment.Skip` / `current` test.
* `Lib`      — `src/lib/upvotes/query.go` and the `Calculator` document of
  `src/lib/upvotes/upvotes.go`: the per-item pagination loop with inner
  connection cursors and the write gate.
* `Internal` — `src/internal/upvotes/query.go` and
  `src/internal/upvotes/upvotes.go`: the earlier per-item pagination loop
  (`handleQueryPage`).
* `Handler`  — `src/handler.go` (second document): rate-limit tracking,
  the skip path of `processProjectItem`, and the serialized update service.

Go `int` is modelled as `Int` (no operation here comes near 64-bit
overflow), Go slices as `List`, Go `map[string]interface{}` query-variable
maps as functions `String → Option (Option String)` (absent / null /
string), and fallible or panicking accesses (`Nodes[0]`) as `Option`.
Network calls are modelled by passing in the list of responses the server
returns, in order; an exhausted list means the loop would keep querying.
-/

namespace QueryV1

/-- `src/query.go`: `TotalCountFragment`. -/
structure TotalCountFragment where
  totalCount : Int
deriving Repr, DecidableEq

/-- `src/query.go`: `PageInfo`. -/
structure PageInfo where
  endCursor : String
  hasNextPage : Bool
deriving Repr, DecidableEq

/-- `src/query.go`: `BaseFragment` (comments and reactions of the root). -/
structure BaseFragment where
  comments : TotalCountFragment
  reactions : TotalCountFragment
deriving Repr, DecidableEq

/-- `src/query.go` lines 184-186: `func (b BaseFragment) Upvotes() int`. -/
def BaseFragment.upvotes (b : BaseFragment) : Int :=
  b.comments.totalCount + b.reactions.totalCount

/-- `src/query.go`: `CombinedBaseFragment` (Issue / PullRequest union of
`BaseFragment`, discriminated by the `__typename` tag). -/
structure CombinedBaseFragment where
  type : String
  issue : BaseFragment
  pullRequest : BaseFragment
deriving Repr, DecidableEq

/-- `src/query.go` lines 197-208: `func (c CombinedBaseFragment) Upvotes() int`.
The Go `switch` leaves `x` at its zero value when the tag matches neither case. -/
def CombinedBaseFragment.upvotes (c : CombinedBaseFragment) : Int :=
  if c.type = "Issue" then c.issue.upvotes
  else if c.type = "PullRequest" then c.pullRequest.upvotes
  else 0

/-- `src/query.go`: `ConnectedEvent` embeds `CombinedBaseFragment` under the
GraphQL alias `source`; its promoted `Upvotes()` is the embedded one. -/
structure ConnectedEvent where
  source : CombinedBaseFragment
deriving Repr, DecidableEq

def ConnectedEvent.upvotes (e : ConnectedEvent) : Int :=
  e.source.upvotes

/-- `src/query.go`: `CrossReferencedEvent` embeds `ConnectedEvent`. -/
structure CrossReferencedEvent where
  connectedEvent : ConnectedEvent
  willCloseTarget : Bool
deriving Repr, DecidableEq

def CrossReferencedEvent.upvotes (e : CrossReferencedEvent) : Int :=
  e.connectedEvent.upvotes

/-- `src/query.go`: `IssueComment`. -/
structure IssueComment where
  reactions : TotalCountFragment
deriving Repr, DecidableEq

/-- `src/query.go`: `MarkedAsDuplicateEvent` embeds `CombinedBaseFragment`
under the alias `canonical`. -/
structure MarkedAsDuplicateEvent where
  canonical : CombinedBaseFragment
deriving Repr, DecidableEq

def MarkedAsDuplicateEvent.upvotes (e : MarkedAsDuplicateEvent) : Int :=
  e.canonical.upvotes

/-- `src/query.go`: `TimeLineItem` — union over the six requested timeline
item types, discriminated by `__typename`.  `ReferencedEvent` and
`SubscribedEvent` carry no variant data. -/
structure TimeLineItem where
  type : String
  connectedEvent : ConnectedEvent
  crossReferencedEvent : CrossReferencedEvent
  issueComment : IssueComment
  markedAsDuplicateEvent : MarkedAsDuplicateEvent
deriving Repr, DecidableEq

/-- `src/query.go` lines 152-168: `func (t TimeLineItem) Upvotes() int`.
Starts at 1 ("the fact that the timeline item exists means that the minimum
upvotes is 1") and adds the variant's contribution; tags that match no case
(ReferencedEvent, SubscribedEvent) add nothing. -/
def TimeLineItem.upvotes (t : TimeLineItem) : Int :=
  1 +
    (if t.type = "ConnectedEvent" then t.connectedEvent.upvotes
     else if t.type = "CrossReferencedEvent" then t.crossReferencedEvent.upvotes
     else if t.type = "IssueComment" then t.issueComment.reactions.totalCount
     else if t.type = "MarkedAsDuplicateEvent" then t.markedAsDuplicateEvent.upvotes
     else 0)

/-- `src/query.go`: the anonymous `TimelineItems` struct in `ContentFragment`. -/
structure TimelineItems where
  pageInfo : PageInfo
  nodes : List TimeLineItem
deriving Repr, DecidableEq

/-- `src/query.go`: `ContentFragment` — an Issue or Pull Request with its
embedded `BaseFragment` and first page of timeline items. -/
structure ContentFragment where
  id : String
  closed : Bool
  base : BaseFragment
  timelineItems : TimelineItems
deriving Repr, DecidableEq

/-- `src/query.go` lines 131-141: `func (c ContentFragment) Upvotes() int` —
the base fragment's upvotes plus each timeline node's upvotes. -/
def ContentFragment.upvotes (c : ContentFragment) : Int :=
  c.timelineItems.nodes.foldl (fun acc t => acc + t.upvotes) c.base.upvotes

/-- `src/query.go`: `Content` — the Issue / PullRequest union attached to a
project item, with the `__typename` discriminant. -/
structure Content where
  type : String
  issue : ContentFragment
  pullRequest : ContentFragment
deriving Repr, DecidableEq

/-- `src/query.go` lines 105-116: `func (c Content) isClosed() bool` — the
Go switch leaves `x` false when the tag matches neither case. -/
def Content.isClosed (c : Content) : Bool :=
  if c.type = "Issue" then c.issue.closed
  else if c.type = "PullRequest" then c.pullRequest.closed
  else false

/-- `src/query.go`: `ProjectItem` (the number field value is carried but not
used by the score logic). -/
structure ProjectItem where
  id : String
  isArchived : Bool
  type : String
  fieldNumber : Float
  content : Content
deriving Repr

/-- `src/query.go` lines 68-78: `func (p ProjectItem) GetContent()` — the Go
switch has only a `case "Issue"` and a `default` returning the PullRequest
fragment, so any other tag silently yields the (zero-valued) PullRequest
fragment. -/
def ProjectItem.getContent (p : ProjectItem) : ContentFragment :=
  if p.type = "Issue" then p.content.issue else p.content.pullRequest

/-- `src/query.go` lines 81-83: `func (p ProjectItem) Skip() bool`. -/
def ProjectItem.skip (p : ProjectItem) : Bool :=
  p.isArchived || p.content.isClosed || p.content.type == "DraftIssue"

/-- `src/query.go`: `ProjectItemEdge`. -/
structure ProjectItemEdge where
  cursor : String
  node : ProjectItem
deriving Repr

end QueryV1

namespace QueriesV2

/-- `src/queries.go`: `TotalCountFragment`. -/
structure TotalCountFragment where
  totalCount : Int
deriving Repr, DecidableEq

/-- `src/queries.go`: `CommentsAndReactionsFragment`. -/
structure CommentsAndReactionsFragment where
  comments : TotalCountFragment
  reactions : TotalCountFragment
deriving Repr, DecidableEq

/-- `src/queries.go` lines 135-137:
`func (c CommentsAndReactionsFragment) countOfCommentsAndReactions() int`. -/
def CommentsAndReactionsFragment.countOfCommentsAndReactions
    (c : CommentsAndReactionsFragment) : Int :=
  c.comments.totalCount + c.reactions.totalCount

/-- `src/queries.go`: `IssueOrPullRequestCommentsAndReactionsFragment` —
Issue / PullRequest union with a `__typename` discriminant. -/
structure IssueOrPullRequestCommentsAndReactionsFragment where
  type : String
  issue : CommentsAndReactionsFragment
  pullRequest : CommentsAndReactionsFragment
deriving Repr, DecidableEq

/-- `src/queries.go` lines 183-192: `upvotes()` on the union fragment; the
explicit `default` branch returns 0 (with a "todo" comment in the source). -/
def IssueOrPullRequestCommentsAndReactionsFragment.upvotes
    (i : IssueOrPullRequestCommentsAndReactionsFragment) : Int :=
  if i.type = "Issue" then i.issue.countOfCommentsAndReactions
  else if i.type = "PullRequest" then i.pullRequest.countOfCommentsAndReactions
  else 0

/-- `src/queries.go`: `ConnectedOrCrossReferencedEvent` embeds the union
fragment under the alias `source`. -/
structure ConnectedOrCrossReferencedEvent where
  source : IssueOrPullRequestCommentsAndReactionsFragment
deriving Repr, DecidableEq

def ConnectedOrCrossReferencedEvent.upvotes
    (e : ConnectedOrCrossReferencedEvent) : Int :=
  e.source.upvotes

/-- `src/queries.go`: `IssueComment`. -/
structure IssueComment where
  reactions : TotalCountFragment
deriving Repr, DecidableEq

/-- `src/queries.go`: `MarkedAsDuplicateEvent` embeds the union fragment
under the alias `canonical`. -/
structure MarkedAsDuplicateEvent where
  canonical : IssueOrPullRequestCommentsAndReactionsFragment
deriving Repr, DecidableEq

def MarkedAsDuplicateEvent.upvotes (e : MarkedAsDuplicateEvent) : Int :=
  e.canonical.upvotes

/-- `src/queries.go`: `TimelineItem`. -/
structure TimelineItem where
  type : String
  connectedEvent : ConnectedOrCrossReferencedEvent
  crossReferencedEvent : ConnectedOrCrossReferencedEvent
  issueComment : IssueComment
  markedAsDuplicateEvent : MarkedAsDuplicateEvent
deriving Repr, DecidableEq

/-- `src/queries.go` lines 156-172: `func (t TimelineItem) upvotes() int` —
identical shape to `QueryV1.TimeLineItem.upvotes`. -/
def TimelineItem.upvotes (t : TimelineItem) : Int :=
  1 +
    (if t.type = "ConnectedEvent" then t.connectedEvent.upvotes
     else if t.type = "CrossReferencedEvent" then t.crossReferencedEvent.upvotes
     else if t.type = "IssueComment" then t.issueComment.reactions.totalCount
     else if t.type = "MarkedAsDuplicateEvent" then t.markedAsDuplicateEvent.upvotes
     else 0)

end QueriesV2

namespace Lib

/-- `src/lib/upvotes/query.go`: the project-item type constants. -/
def itemTypeDraftIssue : String := "DRAFT_ISSUE"

def itemTypeIssue : String := "ISSUE"

def itemTypePullRequest : String := "PULL_REQUEST"

/-- `src/lib/upvotes/query.go`: `PageInfo`. -/
structure PageInfo where
  endCursor : String
  hasNextPage : Bool
deriving Repr, DecidableEq

/-- `src/lib/upvotes/query.go`: `Reactions`. -/
structure Reactions where
  totalCount : Int
deriving Repr, DecidableEq

/-- `src/lib/upvotes/query.go`: `Reactable`. -/
structure Reactable where
  reactions : Reactions
deriving Repr, DecidableEq

/-- `src/lib/upvotes/query.go`: `ConnectionWithReactables` — one fetched page
of a paginated connection (`nodes` is the current page only). -/
structure ConnectionWithReactables where
  nodes : List Reactable
  pageInfo : PageInfo
  totalCount : Int
deriving Repr, DecidableEq

/-- `src/lib/upvotes/query.go` lines 246-252:
`func (c ConnectionWithReactables) reactableUpvotes() (total int)` — sums the
reaction counts of the nodes of the current page (never `TotalCount`). -/
def ConnectionWithReactables.reactableUpvotes (c : ConnectionWithReactables) : Int :=
  c.nodes.foldl (fun total n => total + n.reactions.totalCount) 0

/-- `src/lib/upvotes/query.go` lines 254-257: `endCursor()`. -/
def ConnectionWithReactables.endCursor (c : ConnectionWithReactables) : String :=
  c.pageInfo.endCursor

/-- `src/lib/upvotes/query.go` lines 259-262: `hasNextPage()`. -/
def ConnectionWithReactables.hasNextPage (c : ConnectionWithReactables) : Bool :=
  c.pageInfo.hasNextPage

/-- `src/lib/upvotes/query.go`: `CommonContentFragment` (embedded by both
content fragments). -/
structure CommonContentFragment where
  closed : Bool
  comments : ConnectionWithReactables
  reactions : Reactions
deriving Repr, DecidableEq

/-- `src/lib/upvotes/query.go` lines 225-228: `commentsCount()`. -/
def CommonContentFragment.commentsCount (c : CommonContentFragment) : Int :=
  c.comments.totalCount

/-- `src/lib/upvotes/query.go` lines 230-233: `reactionsCount()`. -/
def CommonContentFragment.reactionsCount (c : CommonContentFragment) : Int :=
  c.reactions.totalCount

/-- `src/lib/upvotes/query.go`: `IssueContentFragment`. -/
structure IssueContentFragment where
  common : CommonContentFragment
  trackedInIssues : ConnectionWithReactables
  trackedIssues : ConnectionWithReactables
deriving Repr, DecidableEq

/-- `src/lib/upvotes/query.go` lines 171-174: `connectionsUpvotes()` for an
Issue — comments, trackedIssues, trackedInIssues page sums. -/
def IssueContentFragment.connectionsUpvotes (i : IssueContentFragment) : Int :=
  i.common.comments.reactableUpvotes + i.trackedIssues.reactableUpvotes +
    i.trackedInIssues.reactableUpvotes

/-- `src/lib/upvotes/query.go` lines 176-183: `connectionsCursors()` for an
Issue.  The Go map literal is modelled as the association list of its three
key-value pairs (the consumer writes each pair into the variable map, so the
iteration order of the Go map is immaterial). -/
def IssueContentFragment.connectionsCursors (i : IssueContentFragment) :
    List (String × String) :=
  [("commentsCursor", i.common.comments.endCursor),
   ("trackedInIssuesCursor", i.trackedInIssues.endCursor),
   ("trackedIssuesCursor", i.trackedIssues.endCursor)]

/-- `src/lib/upvotes/query.go` lines 185-191: `hasNextPage()` for an Issue. -/
def IssueContentFragment.hasNextPage (i : IssueContentFragment) : Bool :=
  i.common.comments.hasNextPage || i.trackedIssues.hasNextPage ||
    i.trackedInIssues.hasNextPage

/-- `src/lib/upvotes/query.go`: `PullRequestContentFragment`. -/
structure PullRequestContentFragment where
  common : CommonContentFragment
  closingIssuesReferences : ConnectionWithReactables
deriving Repr, DecidableEq

/-- `src/lib/upvotes/query.go` lines 198-201: `connectionsUpvotes()` for a
pull request. -/
def PullRequestContentFragment.connectionsUpvotes
    (p : PullRequestContentFragment) : Int :=
  p.common.comments.reactableUpvotes + p.closingIssuesReferences.reactableUpvotes

/-- `src/lib/upvotes/query.go` lines 203-209: `connectionsCursors()` for a
pull request.  NOTE: the source writes the closing-issues cursor under the
key `closingIssueReferencesCursor` (no `s` after `Issue`), which is NOT the
GraphQL variable name `closingIssuesReferencesCursor` declared in the struct
tags and initialized in `calculateProjectItemUpvotes`. -/
def PullRequestContentFragment.connectionsCursors
    (p : PullRequestContentFragment) : List (String × String) :=
  [("commentsCursor", p.common.comments.endCursor),
   ("closingIssueReferencesCursor", p.closingIssuesReferences.endCursor)]

/-- `src/lib/upvotes/query.go` lines 211-217: `hasNextPage()` for a pull
request. -/
def PullRequestContentFragment.hasNextPage (p : PullRequestContentFragment) : Bool :=
  p.common.comments.hasNextPage || p.closingIssuesReferences.hasNextPage

/-- `src/lib/upvotes/query.go`: `Content` — Issue / PullRequest union (no
discriminant field is fetched; the project item's `Type` is the dispatch key). -/
structure Content where
  issue : IssueContentFragment
  pullRequest : PullRequestContentFragment
deriving Repr, DecidableEq

/-- `src/lib/upvotes/query.go`: `Field` (current number value). -/
structure Field where
  number : Float
deriving Repr

/-- `src/lib/upvotes/query.go`: `ProjectItem`. -/
structure ProjectItem where
  id : String
  isArchived : Bool
  field : Field
  type : String
  content : Content
deriving Repr

/-- `src/lib/upvotes/query.go` lines 104-109: `isClosed()` — dispatches on
the item type; every non-Issue type reads the PullRequest fragment. -/
def ProjectItem.isClosed (p : ProjectItem) : Bool :=
  if p.type = itemTypeIssue then p.content.issue.common.closed
  else p.content.pullRequest.common.closed

/-- `src/lib/upvotes/query.go` lines 111-116: `commentsCount()`. -/
def ProjectItem.commentsCount (p : ProjectItem) : Int :=
  if p.type = itemTypeIssue then p.content.issue.common.commentsCount
  else p.content.pullRequest.common.commentsCount

/-- `src/lib/upvotes/query.go` lines 118-123: `reactionsCount()`. -/
def ProjectItem.reactionsCount (p : ProjectItem) : Int :=
  if p.type = itemTypeIssue then p.content.issue.common.reactionsCount
  else p.content.pullRequest.common.reactionsCount

/-- `src/lib/upvotes/query.go` lines 125-130: `connectionsUpvotes()`. -/
def ProjectItem.connectionsUpvotes (p : ProjectItem) : Int :=
  if p.type = itemTypeIssue then p.content.issue.connectionsUpvotes
  else p.content.pullRequest.connectionsUpvotes

/-- `src/lib/upvotes/query.go` lines 132-137: `connectionsCursors()`. -/
def ProjectItem.connectionsCursors (p : ProjectItem) : List (String × String) :=
  if p.type = itemTypeIssue then p.content.issue.connectionsCursors
  else p.content.pullRequest.connectionsCursors

/-- `src/lib/upvotes/query.go` lines 139-144: `hasNextPage()` for an item's
sub-connections. -/
def ProjectItem.hasNextPage (p : ProjectItem) : Bool :=
  if p.type = itemTypeIssue then p.content.issue.hasNextPage
  else p.content.pullRequest.hasNextPage

/-- `src/lib/upvotes/query.go`: `ProjectItems` (one fetched page of the
outer item list; the query asks for `first: 1`). -/
structure ProjectItems where
  pageInfo : PageInfo
  nodes : List ProjectItem
deriving Repr

def ProjectItems.endCursor (p : ProjectItems) : String :=
  p.pageInfo.endCursor

def ProjectItems.hasNextPage (p : ProjectItems) : Bool :=
  p.pageInfo.hasNextPage

/-- `src/lib/upvotes/query.go`: `Project`. -/
structure Project where
  id : String
  projectItems : ProjectItems
deriving Repr

/-- `src/lib/upvotes/query.go`: `Organization`. -/
structure Organization where
  project : Project
deriving Repr

/-- `src/lib/upvotes/query.go`: `RateLimit`. -/
structure RateLimit where
  remaining : Int
deriving Repr, DecidableEq

/-- `src/lib/upvotes/query.go`: `UpvoteQuery` — a fetched response. -/
structure UpvoteQuery where
  organization : Organization
  rateLimit : RateLimit
deriving Repr

/-- The item page of a response. -/
def UpvoteQuery.items (u : UpvoteQuery) : ProjectItems :=
  u.organization.project.projectItems

/-- `src/lib/upvotes/query.go` lines 14-17: `ProjectItemId()` reads
`Nodes[0]` unconditionally; on an empty page the Go code panics, modelled by
`none`. -/
def UpvoteQuery.projectItemId? (u : UpvoteQuery) : Option String :=
  u.items.nodes.head?.map (fun node => node.id)

/-- `src/lib/upvotes/query.go` lines 19-22: `ProjectItemType()` via `Nodes[0]`. -/
def UpvoteQuery.projectItemType? (u : UpvoteQuery) : Option String :=
  u.items.nodes.head?.map (fun node => node.type)

/-- `src/lib/upvotes/query.go` lines 24-32: `Skip()` — true when `Nodes[0]`
is archived or its resolved content is closed.  (There is no DraftIssue test
in this variant.)  Reads `Nodes[0]` unconditionally. -/
def UpvoteQuery.skip? (u : UpvoteQuery) : Option Bool :=
  u.items.nodes.head?.map (fun node => node.isArchived || node.isClosed)

/-- `src/lib/upvotes/query.go` lines 34-37: `ProjectItemCommentsCount()` via
`Nodes[0]`. -/
def UpvoteQuery.projectItemCommentsCount? (u : UpvoteQuery) : Option Int :=
  u.items.nodes.head?.map (fun node => node.commentsCount)

/-- `src/lib/upvotes/query.go` lines 39-42: `ProjectItemConnectionsUpvotes()`
via `Nodes[0]`. -/
def UpvoteQuery.projectItemConnectionsUpvotes? (u : UpvoteQuery) : Option Int :=
  u.items.nodes.head?.map (fun node => node.connectionsUpvotes)

/-- `src/lib/upvotes/query.go` lines 44-47: `ProjectItemConnectionsCursors()`
via `Nodes[0]`. -/
def UpvoteQuery.projectItemConnectionsCursors? (u : UpvoteQuery) :
    Option (List (String × String)) :=
  u.items.nodes.head?.map (fun node => node.connectionsCursors)

/-- `src/lib/upvotes/query.go` lines 49-52: `ProjectItemReactionsCount()` via
`Nodes[0]`. -/
def UpvoteQuery.projectItemReactionsCount? (u : UpvoteQuery) : Option Int :=
  u.items.nodes.head?.map (fun node => node.reactionsCount)

/-- `src/lib/upvotes/query.go` lines 54-57: `ProjectItemHasNextPage()` via
`Nodes[0]`. -/
def UpvoteQuery.projectItemHasNextPage? (u : UpvoteQuery) : Option Bool :=
  u.items.nodes.head?.map (fun node => node.hasNextPage)

/-- `src/lib/upvotes/query.go` lines 59-63: the outer `HasNextPage()` —
page-info of the item list, total (no indexing). -/
def UpvoteQuery.hasNextPage (u : UpvoteQuery) : Bool × String :=
  (u.items.hasNextPage, u.items.endCursor)

/-- The GraphQL variable map `map[string]interface{}` of
`calculateProjectItemUpvotes`, restricted to its string-valued entries:
`none` = key absent, `some none` = present but null (`(*githubv4.String)(nil)`),
`some (some s)` = present with string value `s`. -/
def Vars := String → Option (Option String)

/-- `vars[k] = githubv4.String(val)` — one assignment into the variable map. -/
def Vars.update (v : Vars) (k : String) (val : String) : Vars :=
  fun s => if s = k then some (some val) else v s

/-- `src/lib/upvotes/upvotes.go` lines 151-154 (and lines 58-61 of the first
document): `for k, v := range cursors { vars[k] = githubv4.String(v) }`.
The keys written are pairwise distinct, so the random Go map iteration order
does not matter. -/
def applyCursors (v : Vars) (cursors : List (String × String)) : Vars :=
  cursors.foldl (fun acc kv => acc.update kv.1 kv.2) v

/-- `src/lib/upvotes/upvotes.go` lines 127-136: the initial variable map of
`calculateProjectItemUpvotes` (its string-valued cursor entries; `org`,
`project` and `fieldName` are constants the loop never rewrites). -/
def initialVars (cursor : String) : Vars :=
  fun k =>
    if k = "projectItemsCursor" then some (some cursor)
    else if k = "commentsCursor" then some none
    else if k = "trackedInIssuesCursor" then some none
    else if k = "trackedIssuesCursor" then some none
    else if k = "closingIssuesReferencesCursor" then some none
    else none

/-- Result of one completed `calculateProjectItemUpvotes` call (the
`Calculator` document, lines 120-172): the total, the item id, the mutation
calls issued (`updateProjectItem`), the value stored by
`viper.Set("cursor", cursor)`, and the returned `hasNextPage`. -/
structure ItemResult where
  upvotes : Int
  projectItemId : String
  mutations : List (String × Int)
  cursorSet : String
  hasNextPage : Bool
deriving Repr, DecidableEq

/-- Outcome of driving the per-item pagination loop against a finite list of
query responses.  `fail` is the Go `return false, err` path and carries the
mutation calls issued before the error; `panicked` is the out-of-bounds
`Nodes[0]` on an empty item page; `outOfResponses` is the model artifact of
exhausting the supplied response list while the loop would query again. -/
inductive CalcOutcome (E : Type) where
  | outOfResponses (vars : Vars) (upvotes : Int)
  | fail (e : E) (mutations : List (String × Int))
  | panicked
  | done (r : ItemResult)

/-- Mutation calls issued during the item loop, whatever the outcome. -/
def CalcOutcome.mutationCalls {E : Type} : CalcOutcome E → List (String × Int)
  | .fail _ ms => ms
  | .done r => r.mutations
  | _ => []

/-- `src/lib/upvotes/upvotes.go` lines 120-172 (the `Calculator` document):
`calculateProjectItemUpvotes`.  Each iteration consumes the next server
response for the current variable map; on success it adds
`ProjectItemConnectionsUpvotes()`, stops when `ProjectItemHasNextPage()` is
false, otherwise rewrites the cursor variables from
`ProjectItemConnectionCursors()` and repeats.  After the loop it adds the
root `reactionsCount + commentsCount`, issues the mutation when `write` is
set, and stores the outer end cursor. -/
def calcItemV2 {E : Type} (write : Bool) (mutExec : String → Int → Except E Unit) :
    List (Except E UpvoteQuery) → Vars → Int → CalcOutcome E
  | [], vars, upvotes => .outOfResponses vars upvotes
  | resp :: rest, vars, upvotes =>
    match resp with
    | .error e => .fail e []
    | .ok q =>
      match q.items.nodes.head? with
      | none => .panicked
      | some node =>
        let upv := upvotes + node.connectionsUpvotes
        if node.hasNextPage then
          calcItemV2 write mutExec rest (applyCursors vars node.connectionsCursors) upv
        else
          let total := upv + node.reactionsCount + node.commentsCount
          if write then
            match mutExec node.id total with
            | .error e => .fail e [(node.id, total)]
            | .ok _ =>
              .done { upvotes := total, projectItemId := node.id,
                      mutations := [(node.id, total)],
                      cursorSet := (q.hasNextPage).2,
                      hasNextPage := (q.hasNextPage).1 }
          else
            .done { upvotes := total, projectItemId := node.id, mutations := [],
                    cursorSet := (q.hasNextPage).2,
                    hasNextPage := (q.hasNextPage).1 }

/-- Outcome of the `Calculator.CalculateUpvotes` walker (lines 97-116 of the
`Calculator` document): `fail` returns the error to the caller and carries
the cursor value current when the failing item started (the resumption
point) plus the mutation calls issued so far. -/
inductive WalkV2Outcome (E : Type) where
  | fail (e : E) (cursor : String) (mutations : List (String × Int))
  | panicked (mutations : List (String × Int))
  | outOfResponses (mutations : List (String × Int))
  | done (finalCursor : String) (mutations : List (String × Int))

/-- Mutation calls issued during a whole walk. -/
def WalkV2Outcome.mutationCalls {E : Type} : WalkV2Outcome E → List (String × Int)
  | .fail _ _ ms => ms
  | .panicked ms => ms
  | .outOfResponses ms => ms
  | .done _ ms => ms

/-- `src/lib/upvotes/upvotes.go` lines 97-116 (the `Calculator` document):
`CalculateUpvotes` — repeatedly runs `calculateProjectItemUpvotes` (each call
builds a fresh variable map from the persisted cursor), RETURNS any error to
its caller, and stops when the inner call reports no further items.  `streams`
lists, per item processed, the query responses the server returns. -/
def calculateUpvotesV2 {E : Type} (write : Bool)
    (mutExec : String → Int → Except E Unit) :
    List (List (Except E UpvoteQuery)) → String → WalkV2Outcome E
  | [], _ => .outOfResponses []
  | s :: rest, cursor =>
    match calcItemV2 write mutExec s (initialVars cursor) 0 with
    | .fail e ms => .fail e cursor ms
    | .panicked => .panicked []
    | .outOfResponses _ _ => .outOfResponses []
    | .done r =>
      if r.hasNextPage then
        match calculateUpvotesV2 write mutExec rest r.cursorSet with
        | .fail e c ms => .fail e c (r.mutations ++ ms)
        | .panicked ms => .panicked (r.mutations ++ ms)
        | .outOfResponses ms => .outOfResponses (r.mutations ++ ms)
        | .done c ms => .done c (r.mutations ++ ms)
      else
        .done r.cursorSet r.mutations

/-- `src/lib/upvotes/upvotes.go` lines 33-71 (first document):
`calculateProjectItemUpvotes` — same pagination loop, no write-back.  On a
query error it returns `(false, err)`. -/
def calcItemV1 {E : Type} :
    List (Except E UpvoteQuery) → Vars → Int → CalcOutcome E
  | [], vars, upvotes => .outOfResponses vars upvotes
  | resp :: rest, vars, upvotes =>
    match resp with
    | .error e => .fail e []
    | .ok q =>
      match q.items.nodes.head? with
      | none => .panicked
      | some node =>
        let upv := upvotes + node.connectionsUpvotes
        if node.hasNextPage then
          calcItemV1 rest (applyCursors vars node.connectionsCursors) upv
        else
          .done { upvotes := upv + node.reactionsCount + node.commentsCount,
                  projectItemId := node.id, mutations := [],
                  cursorSet := (q.hasNextPage).2,
                  hasNextPage := (q.hasNextPage).1 }

/-- Outcome of the first document's `CalculateUpvotes` walker: the function
returns `nil` whenever it terminates normally; `doneOk` carries the errors it
only LOGGED (`slog.Error`) on the way. -/
inductive WalkV1Outcome (E : Type) where
  | doneOk (loggedErrors : List E)
  | panicked
  | outOfResponses
deriving Repr

/-- `src/lib/upvotes/upvotes.go` lines 15-28 (first document):
`CalculateUpvotes` — calls `calculateProjectItemUpvotes` in a loop; a
returned error is passed to `slog.Error` and the loop then breaks (the inner
call reported `hasNextPage == false`), after which the function returns
`nil`: the error never reaches the caller. -/
def calculateUpvotesV1 {E : Type} :
    List (List (Except E UpvoteQuery)) → String → WalkV1Outcome E
  | [], _ => .outOfResponses
  | s :: rest, cursor =>
    match calcItemV1 s (initialVars cursor) 0 with
    | .fail e _ => .doneOk [e]
    | .panicked => .panicked
    | .outOfResponses _ _ => .outOfResponses
    | .done r =>
      if r.hasNextPage then
        match calculateUpvotesV1 rest r.cursorSet with
        | .doneOk logged => .doneOk logged
        | .panicked => .panicked
        | .outOfResponses => .outOfResponses
      else
        .doneOk []

end Lib

namespace Internal

/-- `src/internal/upvotes/query.go`: `PageInfo`. -/
structure PageInfo where
  endCursor : String
  hasNextPage : Bool
deriving Repr, DecidableEq

/-- `src/internal/upvotes/query.go`: `Reactions`. -/
structure Reactions where
  totalCount : Int
deriving Repr, DecidableEq

/-- `src/internal/upvotes/query.go`: `Reactable`. -/
structure Reactable where
  reactions : Reactions
deriving Repr, DecidableEq

/-- `src/internal/upvotes/query.go`: `ConnectionWithReactables`. -/
structure ConnectionWithReactables where
  nodes : List Reactable
  pageInfo : PageInfo
  totalCount : Int
deriving Repr, DecidableEq

/-- `src/internal/upvotes/query.go` lines 108-115: `ReactableUpvotes()`. -/
def ConnectionWithReactables.reactableUpvotes (c : ConnectionWithReactables) : Int :=
  c.nodes.foldl (fun total n => total + n.reactions.totalCount) 0

/-- `src/internal/upvotes/query.go` lines 117-120: `EndCursor()`. -/
def ConnectionWithReactables.endCursor (c : ConnectionWithReactables) : String :=
  c.pageInfo.endCursor

/-- `src/internal/upvotes/query.go` lines 122-125: `HasNextPage()`. -/
def ConnectionWithReactables.hasNextPage (c : ConnectionWithReactables) : Bool :=
  c.pageInfo.hasNextPage

/-- `src/internal/upvotes/query.go`: `IssueContentFragment` (fields are
direct, no embedded common fragment in this iteration). -/
structure IssueContentFragment where
  comments : ConnectionWithReactables
  reactions : Reactions
  trackedInIssues : ConnectionWithReactables
  trackedIssues : ConnectionWithReactables
deriving Repr, DecidableEq

/-- `src/internal/upvotes/query.go` lines 62-67: `HasNextPage()` for an Issue. -/
def IssueContentFragment.hasNextPage (i : IssueContentFragment) : Bool :=
  i.comments.hasNextPage || i.trackedIssues.hasNextPage ||
    i.trackedInIssues.hasNextPage

/-- `src/internal/upvotes/query.go` lines 70-72: `Upvotes()` for an Issue —
page sums of the three connections. -/
def IssueContentFragment.upvotes (i : IssueContentFragment) : Int :=
  i.comments.reactableUpvotes + i.trackedIssues.reactableUpvotes +
    i.trackedInIssues.reactableUpvotes

/-- `src/internal/upvotes/query.go`: `PullRequestContentFragment`. -/
structure PullRequestContentFragment where
  closed : Bool
  closingIssuesReferences : ConnectionWithReactables
  comments : ConnectionWithReactables
  reactions : Reactions
deriving Repr, DecidableEq

/-- `src/internal/upvotes/query.go` lines 83-88: `HasNextPage()` for a pull
request. -/
def PullRequestContentFragment.hasNextPage (p : PullRequestContentFragment) : Bool :=
  p.comments.hasNextPage || p.closingIssuesReferences.hasNextPage

/-- `src/internal/upvotes/query.go` lines 91-93: `Upvotes()` for a pull
request. -/
def PullRequestContentFragment.upvotes (p : PullRequestContentFragment) : Int :=
  p.comments.reactableUpvotes + p.closingIssuesReferences.reactableUpvotes

/-- `src/internal/upvotes/query.go`: the `Content` union of the item node. -/
structure Content where
  issue : IssueContentFragment
  pullRequest : PullRequestContentFragment
deriving Repr, DecidableEq

/-- `src/internal/upvotes/query.go`: the anonymous node struct of
`UpvoteQuery.Organization.Project.Items.Nodes`. -/
structure ItemNode where
  projectItemId : String
  archived : Bool
  type : String
  content : Content
deriving Repr, DecidableEq

/-- `src/internal/upvotes/query.go`: the `Items` connection. -/
structure Items where
  pageInfo : PageInfo
  nodes : List ItemNode
deriving Repr, DecidableEq

/-- `src/internal/upvotes/query.go` lines 10-27: `UpvoteQuery` (the nested
Organization → Project wrappers add no data and are flattened away). -/
structure UpvoteQuery where
  items : Items
deriving Repr, DecidableEq

/-- `src/internal/upvotes/query.go` lines 30-36: `RootTotalUpvotes()` —
reads `Nodes[0]` unconditionally (panic on an empty page, modelled by
`none`); every non-Issue type reads the PullRequest fragment. -/
def UpvoteQuery.rootTotalUpvotes? (u : UpvoteQuery) : Option Int :=
  u.items.nodes.head?.map fun node =>
    if node.type = Lib.itemTypeIssue then node.content.issue.reactions.totalCount
    else node.content.pullRequest.reactions.totalCount

/-- `src/internal/upvotes/query.go` lines 39-45: `RootTotalComments()` via
`Nodes[0]`. -/
def UpvoteQuery.rootTotalComments? (u : UpvoteQuery) : Option Int :=
  u.items.nodes.head?.map fun node =>
    if node.type = Lib.itemTypeIssue then node.content.issue.comments.totalCount
    else node.content.pullRequest.comments.totalCount

/-- `src/internal/upvotes/upvotes.go` lines 85-108: `handleQueryPage` —
reads `Nodes[0]` (modelled by `none` on an empty page), dispatches on the
item type, and when the matched fragment has a further page rewrites ALL of
that variant's cursor variables (under their true GraphQL variable names) to
the connections' current end cursors.  A type matching neither case leaves
`(0, false)` and the variables untouched. -/
def handleQueryPage (u : UpvoteQuery) (v : Lib.Vars) :
    Option (Int × Bool × Lib.Vars) :=
  u.items.nodes.head?.map fun item =>
    if item.type = Lib.itemTypeIssue then
      let i := item.content.issue
      if i.hasNextPage then
        (i.upvotes, true,
          (((v.update "commentsCursor" i.comments.endCursor).update
              "trackedInIssuesCursor" i.trackedInIssues.endCursor).update
            "trackedIssuesCursor" i.trackedIssues.endCursor))
      else
        (i.upvotes, false, v)
    else if item.type = Lib.itemTypePullRequest then
      let p := item.content.pullRequest
      if p.hasNextPage then
        (p.upvotes, true,
          ((v.update "commentsCursor" p.comments.endCursor).update
            "closingIssuesReferencesCursor" p.closingIssuesReferences.endCursor))
      else
        (p.upvotes, false, v)
    else
      (0, false, v)

end Internal

namespace Handler

/-- `src/handler.go` lines 439-443 (and 104-108 of the first document):
`func (c *Calculator) setRateLimitData(v int)` — replaces the stored
remaining budget only when the reported value is strictly lower. -/
def setRateLimitData (old v : Int) : Int :=
  if old > v then v else old

/-- The rate-limit-relevant events of a run: a query response reporting a
`remaining` value (routed through `setRateLimitData`), or a successful
mutation in `projectItemUpdateService` (line 686:
`c.rateLimitRemaining = c.rateLimitRemaining - 1`). -/
inductive RateEvent where
  | response (v : Int)
  | mutationDone
deriving Repr, DecidableEq

/-- Effect of one event on the tracked `rateLimitRemaining`. -/
def applyRateEvent (r : Int) : RateEvent → Int
  | .response v => setRateLimitData r v
  | .mutationDone => r - 1

/-- The `Calculator` fields touched by the update service: the outer
resumption cursor and the tracked rate-limit budget. -/
structure CalcState where
  cursor : String
  rateLimitRemaining : Int
deriving Repr, DecidableEq

/-- `src/handler.go`: `updateProjectItemInput` — one queued update request.
The item is a `ProjectItemEdge` of the matching query document (cursor plus
embedded project item). -/
structure UpdateInput where
  item : QueryV1.ProjectItemEdge
  upvotes : Int
deriving Repr

/-- `src/handler.go` lines 658-690: the body of `projectItemUpdateService`
for one successfully mutated request — after `Mutate` succeeds it sets
`c.cursor = rcvd.item.Cursor` and decrements the tracked budget by exactly 1
("mutations take 1 credit, but don't return that"). -/
def updateServiceStep (c : CalcState) (u : UpdateInput) : CalcState :=
  { cursor := u.item.cursor, rateLimitRemaining := c.rateLimitRemaining - 1 }

/-- `src/handler.go`: the anonymous node query of
`getAdditionalTimelineItems` — `__typename` plus Issue / PullRequest
`ContentFragment`s. -/
structure NodeResp where
  type : String
  issue : QueryV1.ContentFragment
  pullRequest : QueryV1.ContentFragment
deriving Repr

/-- Outcome of processing one project item (`processProjectItem`):
`skipped` is the early `return nil` without touching the queue or cursor,
`enqueued` is the send of an `updateProjectItemInput` on the queue, `fail`
propagates a query error, `outOfResponses` is the model artifact of
exhausting the supplied response list mid-pagination. -/
inductive ProcessOutcome (E : Type) where
  | fail (e : E)
  | outOfResponses
  | skipped
  | enqueued (u : UpdateInput)

/-- `src/handler.go` lines 606-649: `getAdditionalTimelineItems` — pages
through further timeline items of the node, choosing the Issue fragment when
`__typename == "Issue"` and the PullRequest fragment otherwise, adding
`content.Upvotes()` per page, until `HasNextPage` is false. -/
def getAdditionalTimelineItems {E : Type} :
    List (Except E NodeResp) → Int → Except E (Option Int)
  | [], _ => .ok none
  | resp :: rest, upvotes =>
    match resp with
    | .error e => .error e
    | .ok q =>
      let content := if q.type = "Issue" then q.issue else q.pullRequest
      let upv := upvotes + content.upvotes
      if content.timelineItems.pageInfo.hasNextPage then
        getAdditionalTimelineItems rest upv
      else
        .ok (some upv)

/-- `src/handler.go` lines 567-600: `processProjectItem` — if `p.Skip()`
holds, returns nil immediately: nothing is queued and (deliberately, see the
commented-out `c.cursor = p.Cursor` at line 576) the outer cursor is NOT
advanced.  Otherwise computes `content.Upvotes()`, follows additional
timeline pages if any, and sends the update input on the queue. -/
def processProjectItem {E : Type} (p : QueryV1.ProjectItemEdge)
    (extra : List (Except E NodeResp)) : ProcessOutcome E :=
  if p.node.skip then .skipped
  else
    let content := p.node.getContent
    let upvotes := content.upvotes
    if content.timelineItems.pageInfo.hasNextPage then
      match getAdditionalTimelineItems extra 0 with
      | .error e => .fail e
      | .ok none => .outOfResponses
      | .ok (some add) => .enqueued { item := p, upvotes := upvotes + add }
    else
      .enqueued { item := p, upvotes := upvotes }

/-- Composition of one item's processing with the update service: only an
enqueued item reaches `projectItemUpdateService` and hence can move the
cursor or cost a mutation. -/
def applyProcessOutcome {E : Type} (st : CalcState) : ProcessOutcome E → CalcState
  | .enqueued u => updateServiceStep st u
  | _ => st

end Handler

/-! Auxiliary predicates used to state the claims. -/

/-- All reaction / comment counts reachable from a `QueryV1.TimeLineItem` are
non-negative (always true of the GitHub API's `totalCount` values; Go `int`
is modelled by `Int`, so the bound is stated explicitly). -/
def QueryV1.TimeLineItem.countsNonneg (t : QueryV1.TimeLineItem) : Prop :=
  0 ≤ t.connectedEvent.source.issue.comments.totalCount ∧
  0 ≤ t.connectedEvent.source.issue.reactions.totalCount ∧
  0 ≤ t.connectedEvent.source.pullRequest.comments.totalCount ∧
  0 ≤ t.connectedEvent.source.pullRequest.reactions.totalCount ∧
  0 ≤ t.crossReferencedEvent.connectedEvent.source.issue.comments.totalCount ∧
  0 ≤ t.crossReferencedEvent.connectedEvent.source.issue.reactions.totalCount ∧
  0 ≤ t.crossReferencedEvent.connectedEvent.source.pullRequest.comments.totalCount ∧
  0 ≤ t.crossReferencedEvent.connectedEvent.source.pullRequest.reactions.totalCount ∧
  0 ≤ t.issueComment.reactions.totalCount ∧
  0 ≤ t.markedAsDuplicateEvent.canonical.issue.comments.totalCount ∧
  0 ≤ t.markedAsDuplicateEvent.canonical.issue.reactions.totalCount ∧
  0 ≤ t.markedAsDuplicateEvent.canonical.pullRequest.comments.totalCount ∧
  0 ≤ t.markedAsDuplicateEvent.canonical.pullRequest.reactions.totalCount

instance (t : QueryV1.TimeLineItem) : Decidable t.countsNonneg := by
  unfold QueryV1.TimeLineItem.countsNonneg
  infer_instance

/-- Same bound for the `src/queries.go` timeline item. -/
def QueriesV2.TimelineItem.countsNonneg (t : QueriesV2.TimelineItem) : Prop :=
  0 ≤ t.connectedEvent.source.issue.comments.totalCount ∧
  0 ≤ t.connectedEvent.source.issue.reactions.totalCount ∧
  0 ≤ t.connectedEvent.source.pullRequest.comments.totalCount ∧
  0 ≤ t.connectedEvent.source.pullRequest.reactions.totalCount ∧
  0 ≤ t.crossReferencedEvent.source.issue.comments.totalCount ∧
  0 ≤ t.crossReferencedEvent.source.issue.reactions.totalCount ∧
  0 ≤ t.crossReferencedEvent.source.pullRequest.comments.totalCount ∧
  0 ≤ t.crossReferencedEvent.source.pullRequest.reactions.totalCount ∧
  0 ≤ t.issueComment.reactions.totalCount ∧
  0 ≤ t.markedAsDuplicateEvent.canonical.issue.comments.totalCount ∧
  0 ≤ t.markedAsDuplicateEvent.canonical.issue.reactions.totalCount ∧
  0 ≤ t.markedAsDuplicateEvent.canonical.pullRequest.comments.totalCount ∧
  0 ≤ t.markedAsDuplicateEvent.canonical.pullRequest.reactions.totalCount

instance (t : QueriesV2.TimelineItem) : Decidable t.countsNonneg := by
  unfold QueriesV2.TimelineItem.countsNonneg
  infer_instance

/-- No sub-connection of a `Lib.ProjectItem` holds any node (both union
variants), i.e. the per-page reactable sums are over empty pages. -/
def Lib.ProjectItem.noConnectionNodes (p : Lib.ProjectItem) : Prop :=
  p.content.issue.common.comments.nodes = [] ∧
  p.content.issue.trackedIssues.nodes = [] ∧
  p.content.issue.trackedInIssues.nodes = [] ∧
  p.content.pullRequest.common.comments.nodes = [] ∧
  p.content.pullRequest.closingIssuesReferences.nodes = []

namespace Fx

/-! Concrete fixtures used by witnesses and counterexamples. -/

/-- An empty connection page. -/
def emptyConn : Lib.ConnectionWithReactables :=
  { nodes := [], pageInfo := { endCursor := "", hasNextPage := false },
    totalCount := 0 }

/-- A zero-valued pull-request fragment. -/
def prZero : Lib.PullRequestContentFragment :=
  { common := { closed := false, comments := emptyConn,
                reactions := { totalCount := 0 } },
    closingIssuesReferences := emptyConn }

/-- A zero-valued issue fragment. -/
def issueZero : Lib.IssueContentFragment :=
  { common := { closed := false, comments := emptyConn,
                reactions := { totalCount := 0 } },
    trackedInIssues := emptyConn, trackedIssues := emptyConn }

/-- C1 witness: a `src/query.go` content fragment with 3 comments, 4
reactions and no timeline items. -/
def c1Frag : QueryV1.ContentFragment :=
  { id := "i1", closed := false,
    base := { comments := { totalCount := 3 }, reactions := { totalCount := 4 } },
    timelineItems := { pageInfo := { endCursor := "", hasNextPage := false },
                       nodes := [] } }

/-- C1 witness: an Issue project item with comments totalCount 3, reactions
totalCount 4, and no sub-connection nodes. -/
def c1Node : Lib.ProjectItem :=
  { id := "pi1", isArchived := false, field := { number := 0 },
    type := "ISSUE",
    content :=
      { issue :=
          { common := { closed := false,
                        comments := { nodes := [],
                                      pageInfo := { endCursor := "",
                                                    hasNextPage := false },
                                      totalCount := 3 },
                        reactions := { totalCount := 4 } },
            trackedInIssues := emptyConn, trackedIssues := emptyConn },
        pullRequest := prZero } }

/-- C1 witness: the single-page response carrying `c1Node`. -/
def c1Query : Lib.UpvoteQuery :=
  { organization :=
      { project :=
          { id := "p1",
            projectItems := { pageInfo := { endCursor := "outer1",
                                            hasNextPage := false },
                              nodes := [c1Node] } } },
    rateLimit := { remaining := 100 } }

/-- A zero-valued combined base fragment. -/
def combinedZero : QueryV1.CombinedBaseFragment :=
  { type := "",
    issue := { comments := { totalCount := 0 }, reactions := { totalCount := 0 } },
    pullRequest := { comments := { totalCount := 0 },
                     reactions := { totalCount := 0 } } }

/-- C2 witness: a bare `ReferencedEvent` timeline item. -/
def c2Referenced : QueryV1.TimeLineItem :=
  { type := "ReferencedEvent",
    connectedEvent := { source := combinedZero },
    crossReferencedEvent := { connectedEvent := { source := combinedZero },
                              willCloseTarget := false },
    issueComment := { reactions := { totalCount := 0 } },
    markedAsDuplicateEvent := { canonical := combinedZero } }

/-- C2 witness: an `IssueComment` timeline item with 2 reactions. -/
def c2Comment : QueryV1.TimeLineItem :=
  { type := "IssueComment",
    connectedEvent := { source := combinedZero },
    crossReferencedEvent := { connectedEvent := { source := combinedZero },
                              willCloseTarget := false },
    issueComment := { reactions := { totalCount := 2 } },
    markedAsDuplicateEvent := { canonical := combinedZero } }

/-- C3 counterexample: a draft project item with nothing else set — the lib
`Skip()` does not test the item type, so this item is NOT skipped. -/
def c3DraftNode : Lib.ProjectItem :=
  { id := "draft1", isArchived := false, field := { number := 0 },
    type := "DRAFT_ISSUE",
    content := { issue := issueZero, pullRequest := prZero } }

/-- C3 counterexample: a response whose single item is `c3DraftNode`. -/
def c3DraftQuery : Lib.UpvoteQuery :=
  { organization :=
      { project :=
          { id := "p1",
            projectItems := { pageInfo := { endCursor := "after-draft",
                                            hasNextPage := true },
                              nodes := [c3DraftNode] } } },
    rateLimit := { remaining := 100 } }

/-- A zero-valued `src/query.go` content fragment. -/
def fragZero : QueryV1.ContentFragment :=
  { id := "", closed := false,
    base := { comments := { totalCount := 0 }, reactions := { totalCount := 0 } },
    timelineItems := { pageInfo := { endCursor := "", hasNextPage := false },
                       nodes := [] } }

/-- C3: a skippable (draft) project item edge in the handler pipeline. -/
def c3SkipEdge : QueryV1.ProjectItemEdge :=
  { cursor := "cur7",
    node := { id := "it7", isArchived := false, type := "DraftIssue",
              fieldNumber := 0,
              content := { type := "DraftIssue", issue := fragZero,
                           pullRequest := fragZero } } }

/-- C3: a live (non-skipped) issue edge with 2 reactions and 3 comments. -/
def c3LiveEdge : QueryV1.ProjectItemEdge :=
  { cursor := "cur8",
    node := { id := "it8", isArchived := false, type := "Issue",
              fieldNumber := 0,
              content :=
                { type := "Issue",
                  issue :=
                    { id := "n8", closed := false,
                      base := { comments := { totalCount := 3 },
                                reactions := { totalCount := 2 } },
                      timelineItems := { pageInfo := { endCursor := "",
                                                       hasNextPage := false },
                                         nodes := [] } },
                  pullRequest := fragZero } } }

/-- C3 / C8: an initial calculator state. -/
def st0 : Handler.CalcState :=
  { cursor := "start", rateLimitRemaining := 500 }

/-- C4: a pull-request fragment whose comments page is exhausted but whose
closing-issues connection has a further page ending at cursor CIR2. -/
def c4PR : Lib.PullRequestContentFragment :=
  { common := { closed := false,
                comments := { nodes := [],
                              pageInfo := { endCursor := "COM1",
                                            hasNextPage := false },
                              totalCount := 0 },
                reactions := { totalCount := 0 } },
    closingIssuesReferences := { nodes := [],
                                 pageInfo := { endCursor := "CIR2",
                                               hasNextPage := true },
                                 totalCount := 0 } }

/-- C4: the pull-request project item carrying `c4PR`. -/
def c4Node : Lib.ProjectItem :=
  { id := "pr1", isArchived := false, field := { number := 0 },
    type := "PULL_REQUEST",
    content := { issue := issueZero, pullRequest := c4PR } }

/-- C4: the variable map after the loop applies `connectionsCursors()`. -/
def c4Vars : Lib.Vars :=
  Lib.applyCursors (Lib.initialVars "x") c4Node.connectionsCursors

/-- C4: the same situation in the `internal` iteration. -/
def c4IntPR : Internal.PullRequestContentFragment :=
  { closed := false,
    closingIssuesReferences := { nodes := [],
                                 pageInfo := { endCursor := "CIR2",
                                               hasNextPage := true },
                                 totalCount := 0 },
    comments := { nodes := [],
                  pageInfo := { endCursor := "COM1", hasNextPage := false },
                  totalCount := 0 },
    reactions := { totalCount := 0 } }

/-- C4: a zero-valued internal issue fragment. -/
def c4IntIssueZero : Internal.IssueContentFragment :=
  { comments := { nodes := [],
                  pageInfo := { endCursor := "", hasNextPage := false },
                  totalCount := 0 },
    reactions := { totalCount := 0 },
    trackedInIssues := { nodes := [],
                         pageInfo := { endCursor := "", hasNextPage := false },
                         totalCount := 0 },
    trackedIssues := { nodes := [],
                       pageInfo := { endCursor := "", hasNextPage := false },
                       totalCount := 0 } }

/-- C4: the internal query response carrying the pull request. -/
def c4IntQuery : Internal.UpvoteQuery :=
  { items := { pageInfo := { endCursor := "o1", hasNextPage := false },
               nodes := [{ projectItemId := "n1", archived := false,
                           type := "PULL_REQUEST",
                           content := { issue := c4IntIssueZero,
                                        pullRequest := c4IntPR } }] } }

/-- C5: one reactable with a single reaction. -/
def c5Reactable : Lib.Reactable :=
  { reactions := { totalCount := 1 } }

/-- C5: one comments page holding `k` reactables of count 1, with an
arbitrary reported `totalCount` `tc`. -/
def c5Conn (k : Nat) (tc : Int) (more : Bool) : Lib.ConnectionWithReactables :=
  { nodes := List.replicate k c5Reactable,
    pageInfo := { endCursor := "c", hasNextPage := more }, totalCount := tc }

/-- C5: the Issue project item whose comments connection is `c5Conn`. -/
def c5Node (k : Nat) (tc : Int) (more : Bool) : Lib.ProjectItem :=
  { id := "item1", isArchived := false, field := { number := 0 },
    type := "ISSUE",
    content :=
      { issue := { common := { closed := false, comments := c5Conn k tc more,
                               reactions := { totalCount := 0 } },
                   trackedInIssues := emptyConn, trackedIssues := emptyConn },
        pullRequest := prZero } }

/-- C5: the response carrying `c5Node`. -/
def c5Query (k : Nat) (tc : Int) (more : Bool) : Lib.UpvoteQuery :=
  { organization :=
      { project :=
          { id := "p1",
            projectItems := { pageInfo := { endCursor := "over",
                                            hasNextPage := false },
                              nodes := [c5Node k tc more] } } },
    rateLimit := { remaining := 100 } }

/-- C5: `n + 1` successive pages of the comments connection, each holding
`k` reactables of count 1; only the last reports no further page. -/
def c5Pages (n k : Nat) (tc : Int) : List (Except Unit Lib.UpvoteQuery) :=
  match n with
  | 0 => [Except.ok (c5Query k tc false)]
  | m + 1 => Except.ok (c5Query k tc true) :: c5Pages m k tc

/-- C9: a non-skipped project item whose content type tag is neither Issue
nor PullRequest; its Issue fragment even carries nonzero counts to show they
are ignored by the dispatch. -/
def c9Item : QueryV1.ProjectItem :=
  { id := "x1", isArchived := false, type := "Unknown", fieldNumber := 0,
    content :=
      { type := "Unknown",
        issue :=
          { id := "n9", closed := false,
            base := { comments := { totalCount := 6 },
                      reactions := { totalCount := 7 } },
            timelineItems := { pageInfo := { endCursor := "",
                                             hasNextPage := false },
                               nodes := [] } },
        pullRequest := fragZero } }

/-- C9: a `src/queries.go` union fragment with an unmatched type tag and
nonzero counts in both variants. -/
def c9Union : QueriesV2.IssueOrPullRequestCommentsAndReactionsFragment :=
  { type := "Unknown",
    issue := { comments := { totalCount := 5 }, reactions := { totalCount := 6 } },
    pullRequest := { comments := { totalCount := 7 },
                     reactions := { totalCount := 8 } } }

/-- C10: a response whose item page is empty. -/
def c10Empty : Lib.UpvoteQuery :=
  { organization :=
      { project :=
          { id := "p1",
            projectItems := { pageInfo := { endCursor := "", hasNextPage := false },
                              nodes := [] } } },
    rateLimit := { remaining := 100 } }

/-- C10: an empty internal response. -/
def c10IntEmpty : Internal.UpvoteQuery :=
  { items := { pageInfo := { endCursor := "", hasNextPage := false },
               nodes := [] } }

/-- C10: a nonempty internal response. -/
def c10IntOne : Internal.UpvoteQuery :=
  { items := { pageInfo := { endCursor := "e", hasNextPage := false },
               nodes := [{ projectItemId := "n2", archived := false,
                           type := "ISSUE",
                           content := { issue := c4IntIssueZero,
                                        pullRequest := c4IntPR } }] } }

end Fx

/-! Helper lemmas. -/

theorem Lib.foldl_add_totalCount (l : List Lib.Reactable) (a : Int) :
    l.foldl (fun total n => total + n.reactions.totalCount) a =
      a + (l.map (fun n => n.reactions.totalCount)).sum := by
  induction l generalizing a with
  | nil => simp
  | cons x xs ih =>
    simp only [List.foldl_cons, List.map_cons, List.sum_cons, ih]
    ring

theorem Lib.reactableUpvotes_eq_sum (c : Lib.ConnectionWithReactables) :
    c.reactableUpvotes = (c.nodes.map (fun n => n.reactions.totalCount)).sum := by
  unfold Lib.ConnectionWithReactables.reactableUpvotes
  rw [Lib.foldl_add_totalCount]
  ring

theorem Lib.connectionsUpvotes_of_noNodes (p : Lib.ProjectItem)
    (h : p.noConnectionNodes) : p.connectionsUpvotes = 0 := by
  obtain ⟨h1, h2, h3, h4, h5⟩ := h
  unfold Lib.ProjectItem.connectionsUpvotes
  unfold Lib.IssueContentFragment.connectionsUpvotes
  unfold Lib.PullRequestContentFragment.connectionsUpvotes
  unfold Lib.ConnectionWithReactables.reactableUpvotes
  rw [h1, h2, h3, h4, h5]
  split <;> simp

theorem QueryV1.foldl_add_upvotes (l : List QueryV1.TimeLineItem) (a : Int) :
    l.foldl (fun acc t => acc + t.upvotes) a =
      a + (l.map (fun t => t.upvotes)).sum := by
  induction l generalizing a with
  | nil => simp
  | cons x xs ih =>
    simp only [List.foldl_cons, List.map_cons, List.sum_cons, ih]
    ring

/-! Claim theorems. -/

/-- C1: an item whose root content has comments totalCount `c` and reactions
totalCount `r`, no timeline items, and no sub-connection nodes scores exactly
`c + r`, taken once from the root content fragment.  Part 1 is the
`src/query.go` model (`BaseFragment.Upvotes` plus an empty timeline); part 2
is the `lib/upvotes` pagination loop on a single-page response: the score is
the (empty) connection page sums plus the root `reactionsCount` and
`commentsCount`, read once after the loop. -/
theorem c1_base_score :
    (∀ f : QueryV1.ContentFragment, f.timelineItems.nodes = [] →
      f.upvotes = f.base.comments.totalCount + f.base.reactions.totalCount) ∧
    (∀ (mutExec : String → Int → Except Unit Unit) (q : Lib.UpvoteQuery)
      (node : Lib.ProjectItem) (vars : Lib.Vars),
      q.items.nodes = [node] →
      node.hasNextPage = false →
      node.noConnectionNodes →
      Lib.calcItemV2 false mutExec [Except.ok q] vars 0 =
        Lib.CalcOutcome.done
          { upvotes := node.reactionsCount + node.commentsCount,
            projectItemId := node.id, mutations := [],
            cursorSet := q.items.pageInfo.endCursor,
            hasNextPage := q.items.pageInfo.hasNextPage }) := by
  constructor
  · intro f h
    unfold QueryV1.ContentFragment.upvotes
    rw [h]
    simp [QueryV1.BaseFragment.upvotes]
  · intro mutExec q node vars hnodes hnext hconn
    simp only [Lib.calcItemV2, hnodes, List.head?_cons,
      Lib.connectionsUpvotes_of_noNodes node hconn, hnext]
    simp [Lib.UpvoteQuery.hasNextPage, Lib.ProjectItems.hasNextPage,
      Lib.ProjectItems.endCursor]

/-- C2: every recognized timeline item contributes at least 1 (given the API
counts are non-negative); `ReferencedEvent` / `SubscribedEvent` contribute
exactly 1; an `IssueComment` contributes 1 plus its reactions totalCount; a
`ConnectedEvent`, `CrossReferencedEvent` or `MarkedAsDuplicateEvent`
contributes 1 plus the linked item's comments-plus-reactions, resolved by the
Issue / PullRequest union dispatch.  Stated for both the `src/query.go` and
the `src/queries.go` models. -/
theorem c2_timeline_contributions :
    (∀ t : QueryV1.TimeLineItem, t.countsNonneg → 1 ≤ t.upvotes) ∧
    (∀ t : QueryV1.TimeLineItem,
      t.type = "ReferencedEvent" ∨ t.type = "SubscribedEvent" → t.upvotes = 1) ∧
    (∀ t : QueryV1.TimeLineItem, t.type = "IssueComment" →
      t.upvotes = 1 + t.issueComment.reactions.totalCount) ∧
    (∀ t : QueryV1.TimeLineItem, t.type = "ConnectedEvent" →
      t.upvotes = 1 + t.connectedEvent.source.upvotes) ∧
    (∀ t : QueryV1.TimeLineItem, t.type = "CrossReferencedEvent" →
      t.upvotes = 1 + t.crossReferencedEvent.connectedEvent.source.upvotes) ∧
    (∀ t : QueryV1.TimeLineItem, t.type = "MarkedAsDuplicateEvent" →
      t.upvotes = 1 + t.markedAsDuplicateEvent.canonical.upvotes) ∧
    (∀ c : QueryV1.CombinedBaseFragment,
      (c.type = "Issue" →
        c.upvotes = c.issue.comments.totalCount + c.issue.reactions.totalCount) ∧
      (c.type = "PullRequest" →
        c.upvotes =
          c.pullRequest.comments.totalCount + c.pullRequest.reactions.totalCount)) ∧
    (∀ t : QueriesV2.TimelineItem, t.countsNonneg → 1 ≤ t.upvotes) ∧
    (∀ t : QueriesV2.TimelineItem,
      t.type = "ReferencedEvent" ∨ t.type = "SubscribedEvent" → t.upvotes = 1) ∧
    (∀ t : QueriesV2.TimelineItem, t.type = "IssueComment" →
      t.upvotes = 1 + t.issueComment.reactions.totalCount) := by
  refine ⟨?_, ?_, ?_, ?_, ?_, ?_, ?_, ?_, ?_, ?_⟩
  · intro t h
    obtain ⟨h1, h2, h3, h4, h5, h6, h7, h8, h9, h10, h11, h12, h13⟩ := h
    simp only [QueryV1.TimeLineItem.upvotes, QueryV1.ConnectedEvent.upvotes,
      QueryV1.CrossReferencedEvent.upvotes, QueryV1.MarkedAsDuplicateEvent.upvotes,
      QueryV1.CombinedBaseFragment.upvotes, QueryV1.BaseFragment.upvotes]
    split_ifs <;> omega
  · rintro t (h | h) <;>
      simp [QueryV1.TimeLineItem.upvotes, h]
  · intro t h
    simp [QueryV1.TimeLineItem.upvotes, h]
  · intro t h
    simp [QueryV1.TimeLineItem.upvotes, QueryV1.ConnectedEvent.upvotes, h]
  · intro t h
    simp [QueryV1.TimeLineItem.upvotes, QueryV1.CrossReferencedEvent.upvotes,
      QueryV1.ConnectedEvent.upvotes, h]
  · intro t h
    simp [QueryV1.TimeLineItem.upvotes, QueryV1.MarkedAsDuplicateEvent.upvotes, h]
  · intro c
    constructor <;> intro h <;>
      simp [QueryV1.CombinedBaseFragment.upvotes, QueryV1.BaseFragment.upvotes, h]
  · intro t h
    obtain ⟨h1, h2, h3, h4, h5, h6, h7, h8, h9, h10, h11, h12, h13⟩ := h
    simp only [QueriesV2.TimelineItem.upvotes,
      QueriesV2.ConnectedOrCrossReferencedEvent.upvotes,
      QueriesV2.MarkedAsDuplicateEvent.upvotes,
      QueriesV2.IssueOrPullRequestCommentsAndReactionsFragment.upvotes,
      QueriesV2.CommentsAndReactionsFragment.countOfCommentsAndReactions]
    split_ifs <;> omega
  · rintro t (h | h) <;>
      simp [QueriesV2.TimelineItem.upvotes, h]
  · intro t h
    simp [QueriesV2.TimelineItem.upvotes, h]

/-- C1 witness: the two parts of `c1_base_score` applied at the concrete
fixtures — the fragment with 3 comments and 4 reactions scores 7, and the
single-page lib loop returns 4 + 3 for the concrete Issue item. -/
theorem c1_base_score_witness :
    Fx.c1Frag.timelineItems.nodes = [] ∧
    QueryV1.ContentFragment.upvotes Fx.c1Frag =
      Fx.c1Frag.base.comments.totalCount + Fx.c1Frag.base.reactions.totalCount ∧
    Lib.calcItemV2 (E := Unit) false (fun _ _ => Except.ok ()) [Except.ok Fx.c1Query]
        (Lib.initialVars "") 0 =
      Lib.CalcOutcome.done
        { upvotes := Fx.c1Node.reactionsCount + Fx.c1Node.commentsCount,
          projectItemId := Fx.c1Node.id, mutations := [],
          cursorSet := Fx.c1Query.items.pageInfo.endCursor,
          hasNextPage := Fx.c1Query.items.pageInfo.hasNextPage } :=
  ⟨rfl, c1_base_score.1 Fx.c1Frag rfl,
    c1_base_score.2 (fun _ _ => Except.ok ()) Fx.c1Query Fx.c1Node
      (Lib.initialVars "") rfl rfl ⟨rfl, rfl, rfl, rfl, rfl⟩⟩

/-- C2 witness: `c2_timeline_contributions` applied at a concrete
`ReferencedEvent` (contributes exactly 1) and a concrete `IssueComment` with
2 reactions (contributes 1 + 2). -/
theorem c2_timeline_contributions_witness :
    Fx.c2Referenced.countsNonneg ∧
    1 ≤ Fx.c2Referenced.upvotes ∧
    Fx.c2Referenced.upvotes = 1 ∧
    Fx.c2Comment.upvotes = 1 + Fx.c2Comment.issueComment.reactions.totalCount :=
  ⟨by decide,
    c2_timeline_contributions.1 Fx.c2Referenced (by decide),
    c2_timeline_contributions.2.1 Fx.c2Referenced (Or.inl rfl),
    c2_timeline_contributions.2.2.1 Fx.c2Comment rfl⟩

/-- C3 counterexample: the claim fails on the code in two cited places.  In
`src/lib/upvotes/query.go` `Skip()` tests only archived-or-closed, so a
DraftIssue project item (archived = false, closed = false) is NOT skipped,
refuting "skipped iff archived or DraftIssue or closed"; and in
`src/handler.go` `processProjectItem` a skipped item leaves the outer cursor
untouched (the `c.cursor = p.Cursor` line is commented out), refuting "the
outer cursor still advances past it". -/
theorem c3_skip_counterexample :
    Fx.c3DraftNode.type = "DRAFT_ISSUE" ∧
    Fx.c3DraftNode.isArchived = false ∧
    Fx.c3DraftQuery.items.nodes = [Fx.c3DraftNode] ∧
    Lib.UpvoteQuery.skip? Fx.c3DraftQuery = some false ∧
    QueryV1.ProjectItem.skip Fx.c3SkipEdge.node = true ∧
    Handler.processProjectItem (E := Unit) Fx.c3SkipEdge [] =
      Handler.ProcessOutcome.skipped ∧
    Handler.applyProcessOutcome Fx.st0
      (Handler.processProjectItem (E := Unit) Fx.c3SkipEdge []) = Fx.st0 ∧
    Fx.st0.cursor ≠ Fx.c3SkipEdge.cursor := by
  refine ⟨rfl, rfl, rfl, rfl, rfl, rfl, rfl, ?_⟩
  decide

/-- C3 amended: in the `src/query.go` / `src/handler.go` pipeline an item is
skipped iff it is archived, its resolved content is closed, or its content
type is DraftIssue, while the lib-variant `Skip()` tests only
archived-or-closed (no DraftIssue case); a skipped item contributes nothing
(it is never enqueued for the Mutator) and the outer cursor is NOT advanced
past it — the cursor advances to an item's edge cursor only when the update
service completes that (non-skipped) item. -/
theorem c3_skip_amended :
    (∀ p : QueryV1.ProjectItem,
      p.skip = true ↔
        (p.isArchived = true ∨ p.content.isClosed = true ∨
          p.content.type = "DraftIssue")) ∧
    (∀ (u : Lib.UpvoteQuery) (node : Lib.ProjectItem) (rest : List Lib.ProjectItem),
      u.items.nodes = node :: rest →
      (u.skip? = some true ↔ (node.isArchived = true ∨ node.isClosed = true))) ∧
    (∀ (p : QueryV1.ProjectItemEdge) (extra : List (Except Unit Handler.NodeResp))
      (st : Handler.CalcState), p.node.skip = true →
      Handler.processProjectItem p extra = Handler.ProcessOutcome.skipped ∧
      Handler.applyProcessOutcome st (Handler.processProjectItem p extra) = st) ∧
    (∀ (p : QueryV1.ProjectItemEdge) (extra : List (Except Unit Handler.NodeResp))
      (st : Handler.CalcState),
      p.node.skip = false →
      (p.node.getContent).timelineItems.pageInfo.hasNextPage = false →
      Handler.processProjectItem p extra =
        Handler.ProcessOutcome.enqueued
          { item := p, upvotes := (p.node.getContent).upvotes } ∧
      (Handler.updateServiceStep st
        { item := p, upvotes := (p.node.getContent).upvotes }).cursor = p.cursor) := by
  refine ⟨?_, ?_, ?_, ?_⟩
  · intro p
    unfold QueryV1.ProjectItem.skip
    constructor
    · intro h
      rcases Bool.or_eq_true_iff.mp h with h1 | h2
      · rcases Bool.or_eq_true_iff.mp h1 with ha | hc
        · exact Or.inl ha
        · exact Or.inr (Or.inl hc)
      · exact Or.inr (Or.inr (by simpa using h2))
    · rintro (h | h | h) <;> simp [h]
  · intro u node rest h
    unfold Lib.UpvoteQuery.skip?
    rw [h]
    simp
  · intro p extra st h
    unfold Handler.processProjectItem
    rw [h]
    exact ⟨rfl, by simp [Handler.applyProcessOutcome, Handler.processProjectItem, h]⟩
  · intro p extra st hs hnext
    constructor
    · simp only [Handler.processProjectItem, hs, Bool.false_eq_true, if_false, hnext]
    · rfl

/-- C3 amended witness: the amended statement applied at the concrete
skipped draft edge (left untouched) and at the concrete live issue edge
(enqueued, after which the cursor is its edge cursor). -/
theorem c3_skip_amended_witness :
    QueryV1.ProjectItem.skip Fx.c3SkipEdge.node = true ∧
    Handler.processProjectItem (E := Unit) Fx.c3SkipEdge [] =
      Handler.ProcessOutcome.skipped ∧
    Handler.applyProcessOutcome Fx.st0
      (Handler.processProjectItem (E := Unit) Fx.c3SkipEdge []) = Fx.st0 ∧
    (Handler.updateServiceStep Fx.st0
      { item := Fx.c3LiveEdge, upvotes := 5 }).cursor = Fx.c3LiveEdge.cursor := by
  have h1 := (c3_skip_amended.2.2.1 Fx.c3SkipEdge ([] : List (Except Unit Handler.NodeResp))
    Fx.st0 (by decide))
  have h2 := (c3_skip_amended.2.2.2 Fx.c3LiveEdge ([] : List (Except Unit Handler.NodeResp))
    Fx.st0 (by decide) rfl)
  exact ⟨by decide, h1.1, h1.2, h2.2⟩

/-- C4: evaluation of the cited code at the failing input.  For a pull
request whose closing-issues connection has a further page ending at
cursor CIR2, `connectionsCursors()` in `src/lib/upvotes/query.go` returns
the end cursor under the misspelled key `closingIssueReferencesCursor`, so
after the loop rewrites the variable map the actual GraphQL variable
`closingIssuesReferencesCursor` is still null — the re-issued query uses the
stale cursor.  The `internal` iteration's `handleQueryPage` sets the
correctly spelled variable, witnessing the intent. -/
theorem c4_cursor_key_mismatch :
    Fx.c4Node.hasNextPage = true ∧
    Fx.c4PR.closingIssuesReferences.endCursor = "CIR2" ∧
    Fx.c4Node.connectionsCursors =
      [("commentsCursor", "COM1"), ("closingIssueReferencesCursor", "CIR2")] ∧
    Fx.c4Vars "closingIssuesReferencesCursor" = some none ∧
    Fx.c4Vars "commentsCursor" = some (some "COM1") ∧
    Fx.c4Vars "closingIssueReferencesCursor" = some (some "CIR2") ∧
    (Internal.handleQueryPage Fx.c4IntQuery (Lib.initialVars "x")).map
        (fun r => (r.1, r.2.1, r.2.2 "closingIssuesReferencesCursor")) =
      some (0, true, some (some "CIR2")) := by
  refine ⟨rfl, rfl, rfl, ?_, ?_, ?_, ?_⟩ <;> rfl

/-- C5 helper: one fixture page's comments connection sums to `k`,
node-by-node, whatever its reported `totalCount`. -/
theorem fxC5Conn_reactableUpvotes (k : Nat) (tc : Int) (more : Bool) :
    (Fx.c5Conn k tc more).reactableUpvotes = k := by
  rw [Lib.reactableUpvotes_eq_sum]
  show ((List.replicate k Fx.c5Reactable).map fun n => n.reactions.totalCount).sum = k
  rw [List.map_replicate]
  simp [List.sum_replicate, Fx.c5Reactable]

/-- C5 helper: the fixture item's connection page sum is `k`. -/
theorem fxC5Node_connectionsUpvotes (k : Nat) (tc : Int) (more : Bool) :
    (Fx.c5Node k tc more).connectionsUpvotes = k := by
  show (Fx.c5Node k tc more).content.issue.connectionsUpvotes = k
  unfold Lib.IssueContentFragment.connectionsUpvotes
  show (Fx.c5Conn k tc more).reactableUpvotes +
      Fx.emptyConn.reactableUpvotes + Fx.emptyConn.reactableUpvotes = k
  rw [fxC5Conn_reactableUpvotes]
  simp [Fx.emptyConn, Lib.ConnectionWithReactables.reactableUpvotes]

/-- C5 helper: the fixture item reports a further page exactly when its
comments connection does. -/
theorem fxC5Node_hasNextPage (k : Nat) (tc : Int) (more : Bool) :
    (Fx.c5Node k tc more).hasNextPage = more := by
  show (Fx.c5Node k tc more).content.issue.hasNextPage = more
  unfold Lib.IssueContentFragment.hasNextPage
  show ((Fx.c5Conn k tc more).hasNextPage ||
      Fx.emptyConn.hasNextPage || Fx.emptyConn.hasNextPage) = more
  simp [Fx.c5Conn, Fx.emptyConn, Lib.ConnectionWithReactables.hasNextPage]

/-- C5 helper: one non-final page adds exactly `k` to the accumulator and
recurses with rewritten cursors. -/
theorem fxC5_step (mutExec : String → Int → Except Unit Unit) (k : Nat) (tc : Int)
    (rest : List (Except Unit Lib.UpvoteQuery)) (vars : Lib.Vars) (u : Int) :
    Lib.calcItemV2 false mutExec (Except.ok (Fx.c5Query k tc true) :: rest) vars u =
      Lib.calcItemV2 false mutExec rest
        (Lib.applyCursors vars (Fx.c5Node k tc true).connectionsCursors) (u + k) := by
  have hh : (Fx.c5Query k tc true).items.nodes.head? = some (Fx.c5Node k tc true) := rfl
  simp only [Lib.calcItemV2, hh, fxC5Node_connectionsUpvotes, fxC5Node_hasNextPage,
    if_true]

/-- C5 helper: driving the loop over the fixture pages accumulates the
node-by-node sums of every page and then adds the root counts of the last
page (reactions 0, comments `tc`). -/
theorem fxC5_loop (mutExec : String → Int → Except Unit Unit) (k : Nat) (tc : Int) :
    ∀ (n : Nat) (vars : Lib.Vars) (u : Int),
      Lib.calcItemV2 false mutExec (Fx.c5Pages n k tc) vars u =
        Lib.CalcOutcome.done
          { upvotes := u + ((n + 1 : Nat) : Int) * k + tc,
            projectItemId := "item1", mutations := [],
            cursorSet := "over", hasNextPage := false } := by
  intro n
  induction n with
  | zero =>
    intro vars u
    have hh : (Fx.c5Query k tc false).items.nodes.head? =
        some (Fx.c5Node k tc false) := rfl
    show Lib.calcItemV2 false mutExec [Except.ok (Fx.c5Query k tc false)] vars u = _
    simp only [Lib.calcItemV2, hh, fxC5Node_connectionsUpvotes, fxC5Node_hasNextPage,
      Bool.false_eq_true, if_false]
    have hr : (Fx.c5Node k tc false).reactionsCount = 0 := rfl
    have hc : (Fx.c5Node k tc false).commentsCount = tc := rfl
    rw [hr, hc]
    rw [show u + (k : Int) + 0 + tc = u + ((0 + 1 : Nat) : Int) * k + tc by
      push_cast; ring]
    rfl
  | succ m ih =>
    intro vars u
    show Lib.calcItemV2 false mutExec
        (Except.ok (Fx.c5Query k tc true) :: Fx.c5Pages m k tc) vars u = _
    rw [fxC5_step, ih]
    rw [show u + (k : Int) + ((m + 1 : Nat) : Int) * k + tc =
        u + ((m + 1 + 1 : Nat) : Int) * k + tc by push_cast; ring]

/-- C5: `reactableUpvotes()` is the node-by-node sum of the current page
(its reported `totalCount` is never consulted), and the per-item loop
accumulates these page sums: over `n + 1` pages each holding `k` reactables
of count 1, the accumulated connection total is `(n + 1) * k`, with the
connection's `totalCount` `tc` entering the score only once, as the root
comment count read after the loop. -/
theorem c5_pagination_completeness :
    (∀ (nodes : List Lib.Reactable) (pi : Lib.PageInfo) (t1 t2 : Int),
      (Lib.ConnectionWithReactables.mk nodes pi t1).reactableUpvotes =
        (Lib.ConnectionWithReactables.mk nodes pi t2).reactableUpvotes) ∧
    (∀ c : Lib.ConnectionWithReactables,
      c.reactableUpvotes = (c.nodes.map (fun n => n.reactions.totalCount)).sum) ∧
    (∀ (mutExec : String → Int → Except Unit Unit) (n k : Nat) (tc : Int)
      (vars : Lib.Vars),
      Lib.calcItemV2 false mutExec (Fx.c5Pages n k tc) vars 0 =
        Lib.CalcOutcome.done
          { upvotes := ((n + 1 : Nat) : Int) * k + tc,
            projectItemId := "item1", mutations := [],
            cursorSet := "over", hasNextPage := false }) := by
  refine ⟨?_, ?_, ?_⟩
  · intro nodes pi t1 t2
    rfl
  · intro c
    exact Lib.reactableUpvotes_eq_sum c
  · intro mutExec n k tc vars
    rw [fxC5_loop]
    rw [show (0 : Int) + ((n + 1 : Nat) : Int) * k + tc =
        ((n + 1 : Nat) : Int) * k + tc by ring]

/-- C6: evaluation at the failing input.  When the first query of an item's
aggregation fails, the first-document walker `CalculateUpvotes`
(`src/lib/upvotes/upvotes.go` lines 15-28) only LOGS the error and returns
`nil` — the error never reaches its caller, contradicting the claim (and the
function's own doc comment "It returns an error if any are encountered").
The inner loop does abort without storing a cursor, and the `Calculator`
document's walker propagates the error with the resumption cursor still at
the incomplete item, as the claim describes. -/
theorem c6_error_swallowed_by_walker :
    Lib.calculateUpvotesV1 (E := String) [[Except.error "boom"]] "c0" =
      Lib.WalkV1Outcome.doneOk ["boom"] ∧
    Lib.calcItemV1 (E := String) [Except.error "boom"] (Lib.initialVars "c0") 0 =
      Lib.CalcOutcome.fail "boom" [] ∧
    Lib.calculateUpvotesV2 (E := String) true (fun _ _ => Except.ok ())
        [[Except.error "boom"]] "c0" =
      Lib.WalkV2Outcome.fail "boom" "c0" [] :=
  ⟨rfl, rfl, rfl⟩

/-- C7 helper: with the write gate off, the per-item loop never reaches the
mutation branch, whatever responses arrive. -/
theorem Lib.calcItemV2_dryRun_mutationCalls {E : Type}
    (mutExec : String → Int → Except E Unit) :
    ∀ (pages : List (Except E Lib.UpvoteQuery)) (vars : Lib.Vars) (u : Int),
      (Lib.calcItemV2 false mutExec pages vars u).mutationCalls = [] := by
  intro pages
  induction pages with
  | nil => intro vars u; rfl
  | cons resp rest ih =>
    intro vars u
    cases resp with
    | error e => rfl
    | ok q =>
      cases hq : q.items.nodes.head? with
      | none => simp only [Lib.calcItemV2, hq]; rfl
      | some node =>
        cases hn : node.hasNextPage with
        | true => simp only [Lib.calcItemV2, hq, hn, if_true]; exact ih _ _
        | false =>
          simp only [Lib.calcItemV2, hq, hn, Bool.false_eq_true, if_false]
          rfl

/-- C7: with the write / dry-run toggle disabled (the default), no call to
the mutation executor ever occurs over an entire walk, regardless of the
responses or the scores computed. -/
theorem c7_dry_run_no_mutation_calls :
    ∀ (E : Type) (mutExec : String → Int → Except E Unit)
      (streams : List (List (Except E Lib.UpvoteQuery))) (cursor : String),
      (Lib.calculateUpvotesV2 false mutExec streams cursor).mutationCalls = [] := by
  intro E mutExec streams
  induction streams with
  | nil => intro cursor; rfl
  | cons s rest ih =>
    intro cursor
    have h := Lib.calcItemV2_dryRun_mutationCalls mutExec s (Lib.initialVars cursor) 0
    cases hcalc : Lib.calcItemV2 false mutExec s (Lib.initialVars cursor) 0 with
    | outOfResponses v u => simp only [Lib.calculateUpvotesV2, hcalc]; rfl
    | panicked => simp only [Lib.calculateUpvotesV2, hcalc]; rfl
    | fail e ms =>
      rw [hcalc] at h
      simp only [Lib.calculateUpvotesV2, hcalc]
      simpa [Lib.CalcOutcome.mutationCalls, Lib.WalkV2Outcome.mutationCalls] using h
    | done r =>
      rw [hcalc] at h
      simp only [Lib.CalcOutcome.mutationCalls] at h
      simp only [Lib.calculateUpvotesV2, hcalc]
      cases hr : r.hasNextPage with
      | false =>
        simp only [Bool.false_eq_true, if_false, Lib.WalkV2Outcome.mutationCalls]
        exact h
      | true =>
        simp only [if_true]
        have h2 := ih r.cursorSet
        cases hrec : Lib.calculateUpvotesV2 false mutExec rest r.cursorSet <;>
          rw [hrec] at h2 <;>
          simp_all [Lib.WalkV2Outcome.mutationCalls]

/-- C8 helper: no rate event ever increases the tracked budget. -/
theorem Handler.applyRateEvent_le (r : Int) (e : Handler.RateEvent) :
    Handler.applyRateEvent r e ≤ r := by
  cases e with
  | response v =>
    simp only [Handler.applyRateEvent, Handler.setRateLimitData]
    split_ifs <;> omega
  | mutationDone =>
    simp only [Handler.applyRateEvent]
    omega

/-- C8: the tracked rate-limit budget is monotonically non-increasing within
a run — a response value replaces the stored one only when strictly lower —
and each successful mutation in the update service decrements the tracked
value by exactly 1, independent of later responses. -/
theorem c8_rate_limit_monotone :
    (∀ old v : Int, Handler.setRateLimitData old v ≤ old) ∧
    (∀ old v : Int, v < old → Handler.setRateLimitData old v = v) ∧
    (∀ old v : Int, old ≤ v → Handler.setRateLimitData old v = old) ∧
    (∀ r : Int, Handler.applyRateEvent r Handler.RateEvent.mutationDone = r - 1) ∧
    (∀ (st : Handler.CalcState) (u : Handler.UpdateInput),
      (Handler.updateServiceStep st u).rateLimitRemaining =
        st.rateLimitRemaining - 1) ∧
    (∀ (evs : List Handler.RateEvent) (r0 : Int),
      List.foldl Handler.applyRateEvent r0 evs ≤ r0) := by
  refine ⟨?_, ?_, ?_, ?_, ?_, ?_⟩
  · intro old v
    simp only [Handler.setRateLimitData]
    split_ifs <;> omega
  · intro old v h
    simp only [Handler.setRateLimitData]
    split_ifs <;> omega
  · intro old v h
    simp only [Handler.setRateLimitData]
    split_ifs <;> omega
  · intro r
    rfl
  · intro st u
    rfl
  · intro evs
    induction evs with
    | nil => intro r0; simp
    | cons e rest ih =>
      intro r0
      calc List.foldl Handler.applyRateEvent r0 (e :: rest) =
          List.foldl Handler.applyRateEvent (Handler.applyRateEvent r0 e) rest := rfl
        _ ≤ Handler.applyRateEvent r0 e := ih _
        _ ≤ r0 := Handler.applyRateEvent_le r0 e

/-- C8 witness: `c8_rate_limit_monotone` at concrete values — a lower report
replaces (10 → 4), a higher report is ignored (10 stays under 12), a
mutation decrements by exactly 1, and a concrete event trace never rises
above its start. -/
theorem c8_rate_limit_monotone_witness :
    (4 : Int) < 10 ∧ Handler.setRateLimitData 10 4 = 4 ∧
    (10 : Int) ≤ 12 ∧ Handler.setRateLimitData 10 12 = 10 ∧
    Handler.applyRateEvent 10 Handler.RateEvent.mutationDone = 10 - 1 ∧
    (Handler.updateServiceStep Fx.st0
      { item := Fx.c3LiveEdge, upvotes := 5 }).rateLimitRemaining =
        Fx.st0.rateLimitRemaining - 1 ∧
    List.foldl Handler.applyRateEvent 100
        [Handler.RateEvent.response 90, Handler.RateEvent.mutationDone,
         Handler.RateEvent.response 95] ≤ 100 :=
  ⟨by decide, c8_rate_limit_monotone.2.1 10 4 (by decide),
   by decide, c8_rate_limit_monotone.2.2.1 10 12 (by decide),
   c8_rate_limit_monotone.2.2.2.1 10,
   c8_rate_limit_monotone.2.2.2.2.1 Fx.st0 { item := Fx.c3LiveEdge, upvotes := 5 },
   c8_rate_limit_monotone.2.2.2.2.2
     [Handler.RateEvent.response 90, Handler.RateEvent.mutationDone,
      Handler.RateEvent.response 95] 100⟩

/-- C9: evaluation at the failing input.  A non-skipped project item whose
content type tag is neither Issue nor PullRequest is resolved WITHOUT any
panic: `GetContent` in `src/query.go` silently falls through to the
zero-valued PullRequest fragment (score 0), and the `src/queries.go` union
`upvotes()` hits its explicit `default: return 0`, even with nonzero counts
in both variants — contradicting the claim that this is a fatal / asserting
condition. -/
theorem c9_silent_zero_dispatch :
    QueryV1.ProjectItem.skip Fx.c9Item = false ∧
    Fx.c9Item.type ≠ "Issue" ∧
    Fx.c9Item.type ≠ "PullRequest" ∧
    Fx.c9Item.getContent = Fx.c9Item.content.pullRequest ∧
    (Fx.c9Item.getContent).upvotes = 0 ∧
    Fx.c9Item.content.issue.base.upvotes = 13 ∧
    Fx.c9Union.type ≠ "Issue" ∧
    Fx.c9Union.type ≠ "PullRequest" ∧
    Fx.c9Union.upvotes = 0 ∧
    Fx.c9Union.issue.countOfCommentsAndReactions = 11 := by
  refine ⟨rfl, ?_, ?_, rfl, rfl, rfl, ?_, ?_, rfl, rfl⟩ <;> decide

/-- C10: every per-item accessor reads `Nodes[0]` of the fetched items page:
on an empty page each is undefined (the Go code indexes out of bounds,
modelled by `none`), and on a nonempty page each returns exactly the head
node's datum. -/
theorem c10_nodes_first_indexing :
    (∀ u : Lib.UpvoteQuery, u.items.nodes = [] →
      u.projectItemId? = none ∧ u.projectItemType? = none ∧ u.skip? = none ∧
      u.projectItemCommentsCount? = none ∧
      u.projectItemConnectionsUpvotes? = none ∧
      u.projectItemConnectionsCursors? = none ∧
      u.projectItemReactionsCount? = none ∧
      u.projectItemHasNextPage? = none) ∧
    (∀ (u : Lib.UpvoteQuery) (node : Lib.ProjectItem) (rest : List Lib.ProjectItem),
      u.items.nodes = node :: rest →
      u.projectItemId? = some node.id ∧
      u.skip? = some (node.isArchived || node.isClosed) ∧
      u.projectItemReactionsCount? = some node.reactionsCount ∧
      u.projectItemCommentsCount? = some node.commentsCount ∧
      u.projectItemConnectionsUpvotes? = some node.connectionsUpvotes) ∧
    (∀ (v : Internal.UpvoteQuery) (vars : Lib.Vars), v.items.nodes = [] →
      v.rootTotalUpvotes? = none ∧ v.rootTotalComments? = none ∧
      Internal.handleQueryPage v vars = none) ∧
    (∀ (v : Internal.UpvoteQuery) (node : Internal.ItemNode)
      (rest : List Internal.ItemNode), v.items.nodes = node :: rest →
      (v.rootTotalUpvotes?).isSome = true ∧
      (v.rootTotalComments?).isSome = true) := by
  refine ⟨?_, ?_, ?_, ?_⟩
  · intro u h
    refine ⟨?_, ?_, ?_, ?_, ?_, ?_, ?_, ?_⟩ <;>
      simp [Lib.UpvoteQuery.projectItemId?, Lib.UpvoteQuery.projectItemType?,
        Lib.UpvoteQuery.skip?, Lib.UpvoteQuery.projectItemCommentsCount?,
        Lib.UpvoteQuery.projectItemConnectionsUpvotes?,
        Lib.UpvoteQuery.projectItemConnectionsCursors?,
        Lib.UpvoteQuery.projectItemReactionsCount?,
        Lib.UpvoteQuery.projectItemHasNextPage?, h]
  · intro u node rest h
    refine ⟨?_, ?_, ?_, ?_, ?_⟩ <;>
      simp [Lib.UpvoteQuery.projectItemId?, Lib.UpvoteQuery.skip?,
        Lib.UpvoteQuery.projectItemReactionsCount?,
        Lib.UpvoteQuery.projectItemCommentsCount?,
        Lib.UpvoteQuery.projectItemConnectionsUpvotes?, h]
  · intro v vars h
    refine ⟨?_, ?_, ?_⟩ <;>
      simp [Internal.UpvoteQuery.rootTotalUpvotes?,
        Internal.UpvoteQuery.rootTotalComments?, Internal.handleQueryPage, h]
  · intro v node rest h
    constructor <;>
      simp [Internal.UpvoteQuery.rootTotalUpvotes?,
        Internal.UpvoteQuery.rootTotalComments?, h]

/-- C10 witness: `c10_nodes_first_indexing` at a concrete empty response
(every accessor undefined) and at concrete one-node responses. -/
theorem c10_nodes_first_indexing_witness :
    Fx.c10Empty.items.nodes = [] ∧
    Lib.UpvoteQuery.projectItemId? Fx.c10Empty = none ∧
    Lib.UpvoteQuery.skip? Fx.c10Empty = none ∧
    Internal.handleQueryPage Fx.c10IntEmpty (Lib.initialVars "") = none ∧
    Lib.UpvoteQuery.projectItemId? Fx.c1Query = some Fx.c1Node.id ∧
    (Internal.UpvoteQuery.rootTotalUpvotes? Fx.c10IntOne).isSome = true :=
  ⟨rfl, (c10_nodes_first_indexing.1 Fx.c10Empty rfl).1,
    (c10_nodes_first_indexing.1 Fx.c10Empty rfl).2.2.1,
    (c10_nodes_first_indexing.2.2.1 Fx.c10IntEmpty (Lib.initialVars "") rfl).2.2,
    (c10_nodes_first_indexing.2.1 Fx.c1Query Fx.c1Node [] rfl).1,
    (c10_nodes_first_indexing.2.2.2 Fx.c10IntOne _ [] rfl).1⟩
